import Mathlib

/-!
Shallow embedding of the PropLens property-sales assistant backend
(`src/backend/proplens`): the LangGraph orchestrator
(`agents/orchestrator.py`), the conversation service
(`services/conversation.py`), the SQL and web-search tools
(`tools/sql_tool.py`, `tools/web_search.py`) and the API controllers
(`controllers/agents.py`, `controllers/conversations.py`).

External collaborators (the LLM, the search provider, the Tavily
extractor, the database clock and UUID generator) are modelled as
explicit inputs; Python dictionaries with string keys are modelled as
association lists; Python `None` is `JValue.null`; float prices are
modelled as integers (no float arithmetic is performed on them anywhere
in the embedded code: they are only compared and ordered).
-/

namespace PropLens

/-- A JSON-ish value as stored in the flexible dictionaries
(`preferences`, `lead_info`, conversation `context`). -/
inductive JValue where
  | null : JValue
  | str : String → JValue
  | num : Int → JValue
  | jbool : Bool → JValue
deriving DecidableEq, Repr

/-- Python truthiness of a `JValue` (`None`, `""`, `0`, `False` are falsy). -/
def jTruthy : JValue → Bool
  | .null => false
  | .str s => s ≠ ""
  | .num n => n ≠ 0
  | .jbool b => b

/-- A Python `dict` with string keys and `α` values, as an
insertion-ordered association list (Python dicts have unique keys and
preserve insertion order). -/
def ADict (α : Type) : Type := List (String × α)

instance {α : Type} [DecidableEq α] : DecidableEq (ADict α) :=
  inferInstanceAs (DecidableEq (List (String × α)))

instance {α : Type} [Repr α] : Repr (ADict α) :=
  inferInstanceAs (Repr (List (String × α)))

/-- The flexible JSON dictionaries of the agent (`preferences`,
`lead_info`, extracted JSON blobs). -/
def AssocDict : Type := ADict JValue

instance : DecidableEq AssocDict := inferInstanceAs (DecidableEq (ADict JValue))

instance : Repr AssocDict := inferInstanceAs (Repr (ADict JValue))

/-- `d.get(k)`: the first binding of `k`. -/
def getKey {α : Type} (d : ADict α) (k : String) : Option α :=
  (d.find? (fun e => e.1 = k)).map (fun e => e.2)

/-- `d[k] = v`: replace the first binding of `k` in place, else append. -/
def setKey {α : Type} : ADict α → String → α → ADict α
  | [], k, v => [(k, v)]
  | e :: rest, k, v => if e.1 = k then (k, v) :: rest else e :: setKey rest k v

/-- `for key, value in ext.items(): if keep(value): cur[key] = value` —
the merge loop shared by `_gather_preferences`, `_collect_lead_info`
and (with `keep ≡ true`, i.e. `dict.update`)
`ConversationService.update_context`. -/
def dictMerge {α : Type} (keep : α → Bool) (cur ext : ADict α) : ADict α :=
  ext.foldl (fun d e => if keep e.2 then setKey d e.1 e.2 else d) cur

/-- `cur.update(ext)`: Python `dict.update`, every key copied. -/
def dictUpdate {α : Type} (cur ext : ADict α) : ADict α :=
  dictMerge (fun _ => true) cur ext

/-- `_gather_preferences` keeps a value unless it is `None` or `"null"`. -/
def keepPref (v : JValue) : Bool :=
  v ≠ JValue.null && v ≠ JValue.str "null"

/-- `_collect_lead_info` keeps a value unless it is `None`, `"null"` or `""`. -/
def keepLead (v : JValue) : Bool :=
  v ≠ JValue.null && v ≠ JValue.str "null" && v ≠ JValue.str ""

/-- Preference merge of `_gather_preferences` (orchestrator.py lines 268-271). -/
def mergePrefs (cur ext : AssocDict) : AssocDict :=
  dictMerge keepPref cur ext

/-- Lead-info merge of `_collect_lead_info` (orchestrator.py lines 500-502). -/
def mergeLead (cur ext : AssocDict) : AssocDict :=
  dictMerge keepLead cur ext


/-! ### The seven intents (`IntentClassification.intent` is a `Literal`
of exactly these seven strings, enforced by pydantic validation of the
structured LLM output). -/

inductive Intent where
  | greeting
  | gathering_preferences
  | searching_properties
  | answering_question
  | booking_visit
  | collecting_lead_info
  | general_conversation
deriving DecidableEq, Repr

def Intent.toName : Intent → String
  | .greeting => "greeting"
  | .gathering_preferences => "gathering_preferences"
  | .searching_properties => "searching_properties"
  | .answering_question => "answering_question"
  | .booking_visit => "booking_visit"
  | .collecting_lead_info => "collecting_lead_info"
  | .general_conversation => "general_conversation"

/-- The seven intent category names, in the order of the `Literal` type. -/
def intentNames : List String :=
  ["greeting", "gathering_preferences", "searching_properties",
   "answering_question", "booking_visit", "collecting_lead_info",
   "general_conversation"]

/-! ### The orchestration graph (`PropertySalesAgent._build_graph`) -/

/-- The sentinel terminal node (`langgraph.graph.END`). -/
def ENDNode : String := "__end__"

/-- A LangGraph workflow as built by `_build_graph`: named nodes, an
entry point, one conditional-edge table (source node, routing map) and a
list of unconditional edges. -/
structure OrchGraph where
  nodes : List String
  entryPoint : String
  condSource : String
  condMap : List (String × String)
  edges : List (String × String)
deriving DecidableEq, Repr

/-- Transcription of `_build_graph` (orchestrator.py lines 99-136): the
`add_node`, `set_entry_point`, `add_conditional_edges` and `add_edge`
calls in source order. -/
def buildGraph : OrchGraph :=
  { nodes :=
      ["classify_intent", "handle_greeting", "gather_preferences",
       "search_properties", "answer_question", "handle_booking",
       "collect_lead_info", "generate_response"]
    entryPoint := "classify_intent"
    condSource := "classify_intent"
    condMap :=
      [("greeting", "handle_greeting"),
       ("gathering_preferences", "gather_preferences"),
       ("searching_properties", "search_properties"),
       ("answering_question", "answer_question"),
       ("booking_visit", "handle_booking"),
       ("collecting_lead_info", "collect_lead_info"),
       ("general_conversation", "generate_response")]
    edges :=
      [("handle_greeting", "generate_response"),
       ("gather_preferences", "search_properties"),
       ("search_properties", "generate_response"),
       ("answer_question", "generate_response"),
       ("handle_booking", "generate_response"),
       ("collect_lead_info", "generate_response"),
       ("generate_response", ENDNode)] }

/-- The unique unconditional successor of a node, if any. -/
def nextNode (g : OrchGraph) (n : String) : Option String :=
  (g.edges.find? (fun e => e.1 = n)).map (fun e => e.2)

/-- Follow unconditional edges from `n` for at most `fuel` steps and
report whether the walk passes through `generate_response` and then
stops at `END`. -/
def reachesGenThenEnd (g : OrchGraph) : Nat → String → Bool
  | 0, _ => false
  | fuel + 1, n =>
    if n = "generate_response" then
      nextNode g n = some ENDNode
    else
      match nextNode g n with
      | some m => reachesGenThenEnd g fuel m
      | none => false

/-! ### Agent state (`agents/state.py`) -/

/-- `PropertyMatch` (state.py): a property row handed around the graph.
`price_usd` is an integer stand-in for the float price. -/
structure PropertyMatch where
  id : String
  project_name : String
  city : Option String
  country : Option String
  price_usd : Option Int
  bedrooms : Option Int
  property_type : Option String
  description : Option String
deriving DecidableEq, Repr

/-- One chat message of the running history. -/
structure ChatMsg where
  role : String
  content : String
deriving DecidableEq, Repr

/-- `AgentState` (state.py): the per-turn state dictionary. `intent` is
`none` while the key is absent (`state.get("intent")` before
classification). `context_property` is never written and omitted. -/
structure AgentState where
  user_message : String
  conversation_id : String
  messages : List ChatMsg
  preferences : AssocDict
  lead_info : AssocDict
  intent : Option Intent
  needs_web_search : Bool
  needs_property_first : Bool
  interested_properties : List String
  recommended_properties : List PropertyMatch
  selected_property : Option PropertyMatch
  sql_results : Option (List AssocDict)
  web_search_results : Option String
  response : String
  booking_confirmed : Bool
  booking_project : Option String
  needs_more_info : Bool
  missing_preferences : List String
  error : Option String
deriving DecidableEq, Repr

/-- The successful structured output of the intent classifier: pydantic
guarantees `intent` is one of the seven `Literal` strings, here the
`Intent` type. `confidence` and `reasoning` are only printed, never read,
and are omitted. -/
structure ClassifierOutput where
  intent : Intent
  needs_web_search : Bool
  interested_property : Option String
deriving DecidableEq, Repr

/-- `_classify_intent` (orchestrator.py lines 138-217).  The LLM call is
an input: `some r` is a successful structured invocation, `none` is any
raised exception (the `except` branch sets the fallback intent). -/
def classifyIntent (st : AgentState) (result : Option ClassifierOutput) : AgentState :=
  match result with
  | some r =>
    let st := { st with intent := some r.intent, needs_web_search := r.needs_web_search }
    match r.interested_property with
    | some p =>
      let interested := st.interested_properties
      let interested := if p ∈ interested then interested else interested ++ [p]
      { st with interested_properties := interested }
    | none => st
  | none =>
    { st with intent := some Intent.general_conversation, needs_web_search := false }

/-- `_route_by_intent` (orchestrator.py lines 219-220):
`state.get("intent", "general_conversation")`. -/
def routeByIntent (st : AgentState) : String :=
  (st.intent.getD Intent.general_conversation).toName

/-- Truthiness of an optional lead-info value (`d.get(k)` on a possibly
missing key). -/
def optTruthy (v : Option JValue) : Bool := v.elim false jTruthy

/-- Truthiness of an optional string (`state.get("booking_project")`). -/
def optStrTruthy (o : Option String) : Bool := o.elim false (fun s => s ≠ "")

/-- `_gather_preferences` (orchestrator.py lines 255-286). `extracted` is
the JSON the LLM extracted from the user message (`extract_json` of the
response; `{}` on parse failure). -/
def gatherPreferences (st : AgentState) (extracted : AssocDict) : AgentState :=
  let prefs := mergePrefs st.preferences extracted
  let missing :=
    (if !(getKey prefs "city").elim false jTruthy then ["preferred city/location"] else []) ++
    (if !(getKey prefs "max_budget").elim false jTruthy &&
        !(getKey prefs "min_budget").elim false jTruthy then ["budget range"] else []) ++
    (if !(getKey prefs "bedrooms").elim false jTruthy then ["number of bedrooms"] else [])
  { st with preferences := prefs,
            missing_preferences := missing,
            needs_more_info := missing.length > 0 }

/-- `_collect_lead_info` (orchestrator.py lines 487-534). `extracted` is
the lead JSON the LLM pulled out of the message. -/
def collectLeadInfo (st : AgentState) (extracted : AssocDict) : AgentState :=
  let lead := mergeLead st.lead_info extracted
  let st := { st with lead_info := lead }
  -- Get booking_project from recommended properties if not set
  let st :=
    if !(optStrTruthy st.booking_project) then
      match st.recommended_properties with
      | p :: _ => { st with booking_project := some p.project_name }
      | [] => st
    else st
  -- Only confirm booking if we have a property AND name + email
  let hasProperty := optStrTruthy st.booking_project ||
                     !st.recommended_properties.isEmpty
  let hasCompleteInfo := optTruthy (getKey lead "first_name") &&
                         optTruthy (getKey lead "email")
  if hasProperty && hasCompleteInfo then
    { st with booking_confirmed := true, missing_preferences := [] }
  else
    let missing :=
      (if !(optTruthy (getKey lead "first_name")) then ["name"] else []) ++
      (if !(optTruthy (getKey lead "email")) then ["email"] else [])
    let st := { st with booking_confirmed := false, missing_preferences := missing }
    if !hasProperty then { st with needs_property_first := true } else st

/-! ### `PropertySalesAgent.process` (orchestrator.py lines 650-694) -/

/-- The fixed generic apology of the broad `except` branch in `process`. -/
def apologyMessage : String :=
  "I apologize, but I encountered an issue. Could you please try again?"

/-- The dictionary returned by `process`.  The Python success dictionary
carries the first eight keys and no `error`; the Python failure
dictionary carries only `response` and `error`, and every other key is
read by the caller with `.get` defaults — those defaults are the values
recorded here. -/
structure ProcessResult where
  response : String
  intent : Option Intent
  preferences : AssocDict
  lead_info : AssocDict
  recommended_properties : List PropertyMatch
  interested_properties : List String
  booking_confirmed : Bool
  booking_project : Option String
  error : Option String
deriving DecidableEq, Repr

/-- `process`: build the initial state, run the graph, and package the
final state; the graph invocation is an input — `.ok fs` is a normal
run ending in final state `fs`, `.error e` is any exception raised
during graph execution (`str(e) = e`). -/
def process (outcome : Except String AgentState) : ProcessResult :=
  match outcome with
  | .ok fs =>
    { response := fs.response
      intent := fs.intent
      preferences := fs.preferences
      lead_info := fs.lead_info
      recommended_properties := fs.recommended_properties
      interested_properties := fs.interested_properties
      booking_confirmed := fs.booking_confirmed
      booking_project := fs.booking_project
      error := none }
  | .error e =>
    { response := apologyMessage
      intent := none
      preferences := []
      lead_info := []
      recommended_properties := []
      interested_properties := []
      booking_confirmed := false
      booking_project := none
      error := some e }

/-! ### The SQL tool (`tools/sql_tool.py`) -/

/-- `pat` occurs as a contiguous run inside the character list. -/
def substrAux (pat : List Char) : List Char → Bool
  | [] => pat.isEmpty
  | c :: rest => pat.isPrefixOf (c :: rest) || substrAux pat rest

/-- The characters of `s` lowercased (`str.lower()` / SQL `LOWER`). -/
def lowerStr (s : String) : List Char := s.data.map Char.toLower

/-- The first `n` characters of `s` (Python `s[:n]`). -/
def strTake (s : String) (n : Nat) : String := ⟨s.data.take n⟩

/-- Case-insensitive containment (`__icontains` / SQL
`LOWER(a) LIKE LOWER('%b%')`). -/
def strIContains (s pat : String) : Bool :=
  substrAux (lowerStr pat) (lowerStr s)

/-- Case-insensitive equality (`__iexact`). -/
def strIEqual (s pat : String) : Bool :=
  lowerStr s == lowerStr pat

/-- A row of the `projects` table (`models.Project`); prices and areas
are integer stand-ins for the stored floats. -/
structure Project where
  id : String
  project_name : String
  bedrooms : Option Int
  bathrooms : Option Int
  completion_status : Option String
  developer_name : Option String
  price_usd : Option Int
  area_sqm : Option Int
  property_type : Option String
  city : Option String
  country : Option String
  description : Option String
deriving DecidableEq, Repr

/-- The keyword arguments of `SQLTool.search_properties`. -/
structure SearchParams where
  city : Option String
  min_price : Option Int
  max_price : Option Int
  bedrooms : Option Int
  property_type : Option String
deriving DecidableEq, Repr

/-- Whether a row survives every filter the backend tool chains onto the
queryset (sql_tool.py lines 36-49).  Each `if city:`-style guard is
Python truthiness, so an empty string or zero disables that filter. -/
def projectMatches (ps : SearchParams) (p : Project) : Bool :=
  p.price_usd.isSome &&
  (match ps.city with
   | some c =>
     if c ≠ "" then
       p.city.elim false (fun s => strIContains s c) ||
       p.country.elim false (fun s => strIEqual s c)
     else true
   | none => true) &&
  (match ps.min_price with
   | some m => if m ≠ 0 then p.price_usd.elim false (fun v => m ≤ v) else true
   | none => true) &&
  (match ps.max_price with
   | some m => if m ≠ 0 then p.price_usd.elim false (fun v => v ≤ m) else true
   | none => true) &&
  (match ps.bedrooms with
   | some b => if b ≠ 0 then p.bedrooms = some b else true
   | none => true) &&
  (match ps.property_type with
   | some t =>
     if t ≠ "" then p.property_type.elim false (fun s => strIEqual s t) else true
   | none => true)

def priceOf (p : Project) : Int := p.price_usd.getD 0

/-- `order_by('price_usd')`: ascending price. -/
def priceLE (a b : Project) : Prop := priceOf a ≤ priceOf b

instance : DecidableRel priceLE :=
  fun a b => inferInstanceAs (Decidable (priceOf a ≤ priceOf b))

instance : IsTotal Project priceLE := ⟨fun a b => Int.le_total (priceOf a) (priceOf b)⟩

instance : IsTrans Project priceLE := ⟨fun _ _ _ => Int.le_trans⟩

/-- The dictionary built for each row in the result loop of
`search_properties` (sql_tool.py lines 54-68); the description is
truncated to 500 characters. -/
structure ResultRow where
  id : String
  project_name : String
  bedrooms : Option Int
  bathrooms : Option Int
  price_usd : Option Int
  area_sqm : Option Int
  city : Option String
  country : Option String
  property_type : Option String
  completion_status : Option String
  developer_name : Option String
  description : Option String
deriving DecidableEq, Repr

def toResultRow (p : Project) : ResultRow :=
  { id := p.id
    project_name := p.project_name
    bedrooms := p.bedrooms
    bathrooms := p.bathrooms
    price_usd := p.price_usd
    area_sqm := p.area_sqm
    city := p.city
    country := p.country
    property_type := p.property_type
    completion_status := p.completion_status
    developer_name := p.developer_name
    description := p.description.map (fun d => strTake d 500) }

/-- `SQLTool.search_properties` of the backend (`proplens/tools/sql_tool.py`
lines 24-71), the tool the orchestrator calls: an ORM queryset —
chained filters, ascending price order, `[:limit]`, then the row
dictionaries.  The database sort is modelled as insertion sort (ties are
in table order). -/
def searchProperties (db : List Project) (ps : SearchParams) (limit : Nat) :
    List ResultRow :=
  ((((db.filter (projectMatches ps)).insertionSort priceLE).take limit).map toResultRow)

/-- Row filter meant by the SQL template of the legacy app-layer tool
(`src/app/tools/sql_tool.py` lines 49-74), which formats the parameter
values into a SQL string: `LOWER(city) LIKE LOWER('%…%')` tests the
`city` column only, `property_type = '…lower…'` is an exact comparison
against the lowercased value, and `price_usd IS NOT NULL` closes the
`WHERE` clause. -/
def templateMatches (ps : SearchParams) (p : Project) : Bool :=
  (match ps.city with
   | some c =>
     if c ≠ "" then p.city.elim false (fun s => strIContains s c) else true
   | none => true) &&
  (match ps.min_price with
   | some m => if m ≠ 0 then p.price_usd.elim false (fun v => m ≤ v) else true
   | none => true) &&
  (match ps.max_price with
   | some m => if m ≠ 0 then p.price_usd.elim false (fun v => v ≤ m) else true
   | none => true) &&
  (match ps.bedrooms with
   | some b => if b ≠ 0 then p.bedrooms = some b else true
   | none => true) &&
  (match ps.property_type with
   | some t =>
     if t ≠ "" then p.property_type.elim false (fun s => s.data == lowerStr t)
     else true
   | none => true) &&
  p.price_usd.isSome

/-- The result of running the formatted SQL template: the rows matching
the substituted conditions, ascending price, `LIMIT limit`. -/
def templateSearch (db : List Project) (ps : SearchParams) (limit : Nat) :
    List Project :=
  ((db.filter (templateMatches ps)).insertionSort priceLE).take limit

/-! ### The web-search tool (`tools/web_search.py`) -/

/-- One raw result dictionary from the search provider (Google results
carry `title`/`snippet`/`url`, Tavily results carry `content` instead of
`snippet`); `none` models a missing key. -/
structure RawResult where
  title : Option String
  snippet : Option String
  content : Option String
  url : Option String
deriving DecidableEq, Repr

/-- `r.get("title", "")`. -/
def rTitle (r : RawResult) : String := r.title.getD ""

/-- `r.get("snippet", r.get("content", ""))`: the `content` fallback
applies only when the `snippet` key is absent. -/
def rSnippet (r : RawResult) : String :=
  match r.snippet with
  | some s => s
  | none => r.content.getD ""

/-- `r.get("url", "")`. -/
def rUrl (r : RawResult) : String := r.url.getD ""

/-- The rendered entry `f"{i}. **{title}**\n{snippet}\nSource: {url}"`. -/
def renderEntry (i : Nat) (r : RawResult) : String :=
  toString i ++ ". **" ++ rTitle r ++ "**\n" ++ rSnippet r ++ "\nSource: " ++ rUrl r

/-- The snippet entries of `search_and_extract` (web_search.py lines
150-158): results are enumerated from 1, and an entry is kept only when
its title and snippet are both non-empty — the numbering keeps the
original positions. -/
def snippetParts (results : List RawResult) : List String :=
  results.enum.filterMap (fun e =>
    if rTitle e.2 ≠ "" && rSnippet e.2 ≠ "" then some (renderEntry (e.1 + 1) e.2)
    else none)

/-- `WebSearchTool.tavily_extract` (web_search.py lines 105-126) as a
function of the provider's `extract` response (url, raw_content pairs):
entries with an empty url or content are dropped and contents are capped
at 2000 characters.  (The Python dict would deduplicate repeated urls;
the provider returns one entry per requested url.) -/
def tavilyExtract (response : List (String × String)) : List (String × String) :=
  response.filterMap (fun e =>
    if e.1 ≠ "" && e.2 ≠ "" then some (e.1, strTake e.2 2000) else none)

/-- `WebSearchTool.search_and_extract` (web_search.py lines 128-173) as
a function of the provider's search `results`, whether Tavily is
configured, and the Tavily `extract` response for the top-two urls. -/
def searchAndExtract (results : List RawResult) (tavilyEnabled : Bool)
    (extractResponse : List (String × String)) : Option String :=
  if results.isEmpty then none
  else
    let parts := snippetParts results
    let snippetsText := String.intercalate "\n\n" parts
    let extractedOut : Option String :=
      if snippetsText.length < 500 && tavilyEnabled then
        let urls := (results.take 2).filterMap (fun r =>
          if rUrl r ≠ "" then some (rUrl r) else none)
        if urls ≠ [] then
          let extracted := tavilyExtract extractResponse
          if extracted ≠ [] then
            some (snippetsText ++ "\n\n--- DETAILED CONTENT ---\n\n" ++
              String.intercalate "\n\n"
                (extracted.map (fun e => "Source: " ++ e.1 ++ "\n\n" ++ e.2)))
          else none
        else none
      else none
    match extractedOut with
    | some out => some out
    | none => if snippetsText ≠ "" then some snippetsText else none

/-! ### Streaming (`PropertySalesAgent.process_stream`, orchestrator.py
lines 696-773, and `AgentsController.chat_stream`, controllers/agents.py
lines 112-252) -/

/-- In-order concatenation (the `full_response += chunk` accumulator). -/
def strConcat : List String → String
  | [] => ""
  | s :: rest => s ++ strConcat rest

/-- A value stored in the `done` payload dictionary. -/
inductive StateValue where
  | vStr (s : String)
  | vOptStr (s : Option String)
  | vDict (d : AssocDict)
  | vProps (l : List PropertyMatch)
  | vStrs (l : List String)
  | vBool (b : Bool)
deriving DecidableEq, Repr

/-- One server-sent event yielded by `process_stream`.  The greeting
path yields the whole agent state as its `done` data (`.doneState`);
the main path yields the seven-key dictionary (`.doneEv`). -/
inductive StreamEvent where
  | intentEv (name : Option String)
  | contentEv (chunk : String)
  | propertiesEv (props : List PropertyMatch)
  | doneEv (payload : ADict StateValue)
  | doneState (st : AgentState)
  | errorEv (msg : String)
deriving DecidableEq, Repr

/-- The dictionary literal of the main-path `done` event (orchestrator.py
lines 761-769): exactly these seven keys, in this order. -/
def donePayload (st : AgentState) : ADict StateValue :=
  [("intent", StateValue.vOptStr (st.intent.map Intent.toName)),
   ("preferences", StateValue.vDict st.preferences),
   ("lead_info", StateValue.vDict st.lead_info),
   ("recommended_properties", StateValue.vProps st.recommended_properties),
   ("interested_properties", StateValue.vStrs st.interested_properties),
   ("booking_confirmed", StateValue.vBool st.booking_confirmed),
   ("booking_project", StateValue.vOptStr st.booking_project)]

/-- The greeting path of `process_stream` (orchestrator.py lines
731-735): `st` is the state after `_classify_intent`, `greetingResponse`
the content of the single `llm.invoke` reply in `_handle_greeting`.  One
`content` event carries the whole reply; the `done` data is the state
itself. -/
def processStreamGreeting (st : AgentState) (greetingResponse : String) :
    List StreamEvent :=
  let st1 := { st with response := greetingResponse }
  [StreamEvent.intentEv (st.intent.map Intent.toName),
   StreamEvent.contentEv greetingResponse,
   StreamEvent.doneState st1]

/-- The non-greeting path of `process_stream` (orchestrator.py lines
737-769): `st` is the agent state after the intent-specific node(s)
have run, `chunks` the contents of the upstream `streaming_llm.astream`
chunks in arrival order.  Only truthy (non-empty) chunk contents are
yielded and accumulated; the final state records the accumulated
response and the `done` payload is built from it. -/
def processStreamMain (st : AgentState) (chunks : List String) :
    List StreamEvent :=
  let yielded := chunks.filter (fun c => c ≠ "")
  let stFinal := { st with response := strConcat yielded }
  [StreamEvent.intentEv (st.intent.map Intent.toName)] ++
  (if st.recommended_properties.isEmpty then []
   else [StreamEvent.propertiesEv st.recommended_properties]) ++
  yielded.map StreamEvent.contentEv ++
  [StreamEvent.doneEv (donePayload stFinal)]

/-- The `content` chunks of an event stream, in order. -/
def contentChunks (events : List StreamEvent) : List String :=
  events.filterMap (fun e =>
    match e with
    | StreamEvent.contentEv c => some c
    | _ => none)

/-- The payload of the last main-path `done` event of a stream, if any. -/
def lastDonePayload (events : List StreamEvent) : Option (ADict StateValue) :=
  (events.reverse.findSome? (fun e =>
    match e with
    | StreamEvent.doneEv p => some p
    | _ => none))

/-- `full_response` as accumulated by `chat_stream.generate`
(controllers/agents.py lines 159-161): the in-order concatenation of
the `content` chunk data. -/
def sseFullResponse (events : List StreamEvent) : String :=
  strConcat (contentChunks events)

/-- The content of the assistant `Message` the `finally` block of
`chat_stream.generate` persists (controllers/agents.py lines 197-204):
an assistant row with `content = full_response` is written exactly when
`full_response` is non-empty. -/
def chatStreamPersisted (events : List StreamEvent) : Option String :=
  let fr := sseFullResponse events
  if fr = "" then none else some fr

/-! ### Persistence (`models.py`, `services/conversation.py`) -/

/-- A `conversations` row; `id` and `created_at` stand in for the
generated UUID and timestamp. -/
structure ConversationRow where
  id : Nat
  status : String
  context : ADict StateValue
  created_at : Nat
deriving DecidableEq, Repr

/-- A `messages` row. -/
structure MessageRow where
  conversation_id : Nat
  role : String
  content : String
  extra_data : ADict StateValue
deriving DecidableEq, Repr

/-- A `leads` row; contact columns hold whatever JSON value the merge
stored. -/
structure LeadRow where
  id : Nat
  conversation_id : Option Nat
  first_name : Option JValue
  last_name : Option JValue
  email : Option JValue
  phone : Option JValue
  preferences : AssocDict
deriving DecidableEq, Repr

/-- A `bookings` row. -/
structure BookingRow where
  id : Nat
  lead_id : Nat
  project_id : String
  status : String
  notes : Option String
deriving DecidableEq, Repr

/-- The relational store. -/
structure Database where
  projects : List Project
  conversations : List ConversationRow
  messages : List MessageRow
  leads : List LeadRow
  bookings : List BookingRow
deriving DecidableEq, Repr

/-- `ConversationService.get_conversation`: `None` when the row does not
exist. -/
def getConversation (db : Database) (cid : Nat) : Option ConversationRow :=
  db.conversations.find? (fun c => c.id = cid)

/-- `ConversationService.create_conversation`:
`Conversation.objects.create(context={})` — empty context, model-default
status `'active'`, generated id and timestamp. -/
def createConversation (db : Database) (freshId now : Nat) :
    Database × ConversationRow :=
  let row : ConversationRow :=
    { id := freshId, status := "active", context := [], created_at := now }
  ({ db with conversations := db.conversations ++ [row] }, row)

/-- `ConversationService.add_message`. -/
def addMessage (db : Database) (cid : Nat) (role content : String)
    (extra : ADict StateValue) : Database :=
  { db with messages := db.messages ++
      [{ conversation_id := cid, role := role, content := content,
         extra_data := extra }] }

/-- `ConversationService.update_context` (conversation.py lines 54-61):
fetch the row, `current_context.update(context)`, save; a missing row is
ignored. -/
def serviceUpdateContext (db : Database) (cid : Nat)
    (ctx : ADict StateValue) : Database :=
  match getConversation db cid with
  | some _ =>
    { db with conversations := db.conversations.map (fun c =>
        if c.id = cid then { c with context := dictUpdate c.context ctx } else c) }
  | none => db

/-- `ConversationService.get_or_create_lead` (conversation.py lines
63-90): update the conversation's existing lead's truthy fields, or
create a fresh row. -/
def getOrCreateLead (db : Database) (cid : Nat) (info : AssocDict)
    (freshId : Nat) : Database × LeadRow :=
  match db.leads.find? (fun l => l.conversation_id = some cid) with
  | some lead =>
    let lead :=
      { lead with
        first_name := if optTruthy (getKey info "first_name")
                      then getKey info "first_name" else lead.first_name
        last_name := if optTruthy (getKey info "last_name")
                     then getKey info "last_name" else lead.last_name
        email := if optTruthy (getKey info "email")
                 then getKey info "email" else lead.email
        phone := if optTruthy (getKey info "phone")
                 then getKey info "phone" else lead.phone }
    ({ db with leads := db.leads.map (fun l =>
        if l.conversation_id = some cid then lead else l) }, lead)
  | none =>
    let lead : LeadRow :=
      { id := freshId, conversation_id := some cid
        first_name := getKey info "first_name"
        last_name := getKey info "last_name"
        email := getKey info "email"
        phone := getKey info "phone"
        preferences := [] }
    ({ db with leads := db.leads ++ [lead] }, lead)

/-- `ConversationService.update_lead_preferences`. -/
def updateLeadPreferences (db : Database) (leadId : Nat)
    (prefs : AssocDict) : Database :=
  { db with leads := db.leads.map (fun l =>
      if l.id = leadId then { l with preferences := dictUpdate l.preferences prefs }
      else l) }

/-- `ConversationService.create_booking`: a `pending` booking row. -/
def createBooking (db : Database) (leadId : Nat) (projectId : String)
    (freshId : Nat) : Database :=
  { db with bookings := db.bookings ++
      [{ id := freshId, lead_id := leadId, project_id := projectId,
         status := "pending", notes := none }] }

/-- `ConversationService.find_project_by_name`:
`filter(project_name__icontains=…).first()`. -/
def findProjectByName (db : Database) (name : String) : Option Project :=
  db.projects.find? (fun p => strIContains p.project_name name)

/-! ### Controllers (`controllers/conversations.py`,
`controllers/agents.py`) -/

/-- `ConversationResponseSchema`: the body of `POST /conversations`. -/
structure ConversationResponse where
  id : Nat
  status : String
  context : ADict StateValue
  created_at : Nat
deriving DecidableEq, Repr

/-- `ConversationController.create_conversation`
(conversations.py lines 14-23). -/
def createConversationEndpoint (db : Database) (freshId now : Nat) :
    Database × ConversationResponse :=
  let r := createConversation db freshId now
  (r.1, { id := r.2.id, status := r.2.status, context := r.2.context,
          created_at := r.2.created_at })

/-- `ChatResponseSchema` restricted to the fields the controller fills. -/
structure ChatResponse where
  response : String
  conversation_id : Nat
  recommended_projects : Option (List PropertyMatch)
  intent : Option Intent
  booking_confirmed : Bool
deriving DecidableEq, Repr

/-- The lead/booking persistence block shared by `chat` (lines 68-88):
runs only when the agent confirmed a booking and the lead info has a
truthy email; a `Booking` row is added only when additionally the named
booking project matches an existing `Project`. -/
def persistLeadAndBooking (db : Database) (cid : Nat) (result : ProcessResult)
    (leadFreshId bookingFreshId : Nat) : Database :=
  if result.booking_confirmed && optTruthy (getKey result.lead_info "email") then
    let r := getOrCreateLead db cid result.lead_info leadFreshId
    let db := r.1
    let lead := r.2
    let db :=
      if result.preferences ≠ [] then
        updateLeadPreferences db lead.id result.preferences
      else db
    match result.booking_project with
    | some bp =>
      if bp ≠ "" then
        match findProjectByName db bp with
        | some project => createBooking db lead.id project.id bookingFreshId
        | none => db
      else db
    | none => db
  else db

/-- `AgentsController.chat` (agents.py lines 24-110): look the
conversation up (404 when absent, nothing written), persist the user
message, run the agent (its result is an input — `process` never
raises), persist the assistant message, merge the new context, then the
lead/booking block, and build the response. -/
def chat (db : Database) (cid : Nat) (message : String)
    (result : ProcessResult) (leadFreshId bookingFreshId : Nat) :
    Database × Except String ChatResponse :=
  match getConversation db cid with
  | none => (db, Except.error "Conversation not found")
  | some _ =>
    let db := addMessage db cid "user" message []
    let db := addMessage db cid "assistant" result.response
      [("intent", StateValue.vOptStr (result.intent.map Intent.toName)),
       ("recommended_properties",
        StateValue.vStrs (result.recommended_properties.map (fun p => p.project_name)))]
    let db := serviceUpdateContext db cid
      [("preferences", StateValue.vDict result.preferences),
       ("lead_info", StateValue.vDict result.lead_info)]
    let db := persistLeadAndBooking db cid result leadFreshId bookingFreshId
    (db, Except.ok
      { response := result.response
        conversation_id := cid
        recommended_projects :=
          if result.recommended_properties.isEmpty then none
          else some result.recommended_properties
        intent := result.intent
        booking_confirmed := result.booking_confirmed })

/-- The eager part of `AgentsController.chat_stream` (agents.py lines
112-130): the conversation lookup (404 when absent, nothing written)
and the user-message write both happen before the streaming response is
returned; the streamed body is modelled separately
(`processStreamMain` / `chatStreamPersisted`). -/
def chatStreamStart (db : Database) (cid : Nat) (message : String) :
    Database × Except String Unit :=
  match getConversation db cid with
  | none => (db, Except.error "Conversation not found")
  | some _ => (addMessage db cid "user" message [], Except.ok ())

/-! ## Theorems -/

/-- Every intent name is one of the seven fixed category names. -/
theorem toName_mem_intentNames (i : Intent) : i.toName ∈ intentNames := by
  cases i <;> simp [Intent.toName, intentNames]

/-- C1 (counterexample): the orchestration graph built by `_build_graph`
has eight nodes — `classify_intent`, the six intent handlers and
`generate_response` — not seven as claimed. -/
theorem orchestration_graph_eight_nodes :
    buildGraph.nodes.length = 8 ∧ buildGraph.nodes.length ≠ 7 := by decide

/-- C1 (amended): the orchestration graph built by
`PropertySalesAgent._build_graph` has exactly eight distinct nodes and
exactly one branch point — the single conditional edge out of intent
classification, with one target per intent category; every other node
has exactly one outgoing edge and it is unconditional, every path
starts at `classify_intent`, and following the unconditional edges from
every branch target reaches `generate_response` and then `END`. -/
theorem orchestration_graph_shape :
    buildGraph.nodes.length = 8 ∧
    buildGraph.nodes.Nodup ∧
    buildGraph.entryPoint = "classify_intent" ∧
    buildGraph.condSource = "classify_intent" ∧
    buildGraph.condMap.map Prod.fst = intentNames ∧
    buildGraph.edges.all (fun e => e.1 != buildGraph.condSource) = true ∧
    (buildGraph.nodes.filter (fun n => n != "classify_intent")).all
      (fun n => (buildGraph.edges.filter (fun e => e.1 = n)).length == 1) = true ∧
    buildGraph.condMap.all (fun e => reachesGenThenEnd buildGraph 3 e.2) = true ∧
    nextNode buildGraph "generate_response" = some ENDNode := by decide

/-- C2: after `_classify_intent` the stored intent is always set and the
routing value is one of the seven fixed categories; a raised exception
(`none`) stores `general_conversation` with `needs_web_search = False`;
and `_route_by_intent` on a state with no intent key yields
`general_conversation`. -/
theorem intent_always_one_of_seven (st : AgentState) (r : Option ClassifierOutput) :
    (classifyIntent st r).intent.isSome = true ∧
    routeByIntent (classifyIntent st r) ∈ intentNames ∧
    (classifyIntent st none).intent = some Intent.general_conversation ∧
    (classifyIntent st none).needs_web_search = false ∧
    routeByIntent { st with intent := none } = "general_conversation" := by
  refine ⟨?_, ?_, rfl, rfl, rfl⟩
  · cases r with
    | none => rfl
    | some c =>
      cases h : c.interested_property <;> simp [classifyIntent, h]
  · cases r with
    | none => exact toName_mem_intentNames _
    | some c =>
      cases h : c.interested_property <;>
        simpa [classifyIntent, h, routeByIntent] using toName_mem_intentNames _

/-- C3: whenever graph execution raises (`Except.error e`),
`PropertySalesAgent.process` returns the dictionary whose `response` is
the fixed generic apology and whose `error` is the exception's string
(the other keys are absent, i.e. their `.get` defaults); `process` is a
total function of the outcome, so no exception ever propagates to the
caller. -/
theorem process_catches_all_exceptions (e : String) :
    process (Except.error e) =
      { response := apologyMessage
        intent := none
        preferences := []
        lead_info := []
        recommended_properties := []
        interested_properties := []
        booking_confirmed := false
        booking_project := none
        error := some e } := rfl

theorem getKey_cons {α : Type} (e : String × α) (d : ADict α) (k : String) :
    getKey (e :: d) k = if e.1 = k then some e.2 else getKey d k := by
  by_cases h : e.1 = k
  · simp [getKey, List.find?_cons_of_pos, h]
  · simp only [getKey, if_neg h]
    rw [List.find?_cons_of_neg _ (by simpa using h)]

theorem getKey_setKey {α : Type} (d : ADict α) (k k' : String) (v : α) :
    getKey (setKey d k v) k' = if k = k' then some v else getKey d k' := by
  induction d with
  | nil =>
    by_cases h : k = k' <;> simp [setKey, getKey_cons, getKey, h]
  | cons e rest ih =>
    by_cases he : e.1 = k
    · rw [setKey, if_pos he, getKey_cons, getKey_cons]
      by_cases h : k = k'
      · simp [h]
      · simp only [if_neg h]
        rw [if_neg (he ▸ h)]
    · rw [setKey, if_neg he, getKey_cons, getKey_cons, ih]
      by_cases h1 : e.1 = k'
      · have hkk : ¬ k = k' := fun h => he (h1.trans h.symm)
        simp [h1, hkk]
      · simp [h1]

/-- What a merged dictionary holds at `k`: the last kept binding of `k`
in `ext`, or else whatever `cur` held. -/
theorem getKey_dictMerge {α : Type} (keep : α → Bool) (ext : ADict α) :
    ∀ (cur : ADict α) (k : String),
      getKey (dictMerge keep cur ext) k =
        match ext.reverse.find? (fun e => keep e.2 && e.1 = k) with
        | some e => some e.2
        | none => getKey cur k := by
  induction ext with
  | nil => intro cur k; rfl
  | cons e rest ih =>
    intro cur k
    have hstep : dictMerge keep cur (e :: rest) =
        dictMerge keep (if keep e.2 then setKey cur e.1 e.2 else cur) rest := rfl
    rw [hstep, ih]
    have hrev : (e :: rest).reverse = rest.reverse ++ [e] := by simp
    rw [hrev, List.find?_append]
    cases hfind : rest.reverse.find? (fun x => keep x.2 && x.1 = k) with
    | some x => simp [Option.or]
    | none =>
      simp only [Option.or]
      by_cases hk : keep e.2
      · by_cases he : e.1 = k
        · rw [if_pos hk, getKey_setKey, if_pos he]
          rw [List.find?_cons_of_pos _ (by simp [hk, he])]
        · rw [if_pos hk, getKey_setKey, if_neg he]
          rw [List.find?_cons_of_neg _ (by simp [hk, he])]
          rfl
      · rw [if_neg hk]
        rw [List.find?_cons_of_neg _ (by simp [hk])]
        rfl

/-- Merging the same extracted dictionary twice changes nothing. -/
theorem dictMerge_idem {α : Type} (keep : α → Bool) (cur ext : ADict α) (k : String) :
    getKey (dictMerge keep (dictMerge keep cur ext) ext) k =
      getKey (dictMerge keep cur ext) k := by
  rw [getKey_dictMerge keep ext (dictMerge keep cur ext) k]
  cases hf : ext.reverse.find? (fun e => keep e.2 && e.1 = k) with
  | some e => rw [getKey_dictMerge keep ext cur k, hf]
  | none => rfl

/-- Merging never removes a key that was already present. -/
theorem dictMerge_preserves {α : Type} (keep : α → Bool) (cur ext : ADict α)
    (k : String) (h : (getKey cur k).isSome = true) :
    (getKey (dictMerge keep cur ext) k).isSome = true := by
  rw [getKey_dictMerge keep ext cur k]
  cases hf : ext.reverse.find? (fun e => keep e.2 && e.1 = k) <;> simp [h]

/-- C4: the preference merge of `_gather_preferences` (copy each
extracted key whose value is neither `None` nor `"null"`) is an
idempotent union — applying it twice with the same extracted dictionary
yields a dictionary with the same value at every key as applying it
once, and it never removes a key already present — and the same holds
for the `current_context.update(context)` merge of
`ConversationService.update_context` (and hence `serviceUpdateContext`).
Equality at every key is Python `dict` equality. -/
theorem preference_merge_idempotent_union (cur ext : AssocDict)
    (ctxCur ctx : ADict StateValue) (k : String) :
    getKey (mergePrefs (mergePrefs cur ext) ext) k = getKey (mergePrefs cur ext) k ∧
    ((getKey cur k).isSome = true → (getKey (mergePrefs cur ext) k).isSome = true) ∧
    getKey (dictUpdate (dictUpdate ctxCur ctx) ctx) k = getKey (dictUpdate ctxCur ctx) k ∧
    ((getKey ctxCur k).isSome = true → (getKey (dictUpdate ctxCur ctx) k).isSome = true) :=
  ⟨dictMerge_idem keepPref cur ext k,
   dictMerge_preserves keepPref cur ext k,
   dictMerge_idem (fun _ => true) ctxCur ctx k,
   dictMerge_preserves (fun _ => true) ctxCur ctx k⟩

def exCur4 : AssocDict := [("city", JValue.str "Dubai")]

def exExt4 : AssocDict := [("bedrooms", JValue.num 2), ("city", JValue.null)]

def exCtxCur4 : ADict StateValue := [("booking_project", StateValue.vOptStr none)]

def exCtx4 : ADict StateValue := [("preferences", StateValue.vDict exCur4)]

/-- C4 witness: the merge theorem applied at concrete dictionaries. -/
theorem preference_merge_witness :
    ((getKey exCur4 "city").isSome = true ∧
      (getKey (mergePrefs exCur4 exExt4) "city").isSome = true) ∧
    getKey (mergePrefs (mergePrefs exCur4 exExt4) exExt4) "bedrooms" =
      getKey (mergePrefs exCur4 exExt4) "bedrooms" ∧
    ((getKey exCtxCur4 "booking_project").isSome = true ∧
      (getKey (dictUpdate exCtxCur4 exCtx4) "booking_project").isSome = true) :=
  ⟨⟨by decide,
    (preference_merge_idempotent_union exCur4 exExt4 exCtxCur4 exCtx4 "city").2.1
      (by decide)⟩,
   (preference_merge_idempotent_union exCur4 exExt4 exCtxCur4 exCtx4 "bedrooms").1,
   ⟨by decide,
    (preference_merge_idempotent_union exCur4 exExt4 exCtxCur4 exCtx4
      "booking_project").2.2.2 (by decide)⟩⟩

/-- Dropping the empty strings does not change a concatenation. -/
theorem strConcat_filter_ne : ∀ l : List String,
    strConcat (l.filter (fun c => c ≠ "")) = strConcat l := by
  intro l
  induction l with
  | nil => rfl
  | cons c rest ih =>
    rw [List.filter_cons]
    by_cases h : c = ""
    · rw [if_neg (by simp [h]), ih]
      subst h
      rfl
    · rw [if_pos (by simp [h])]
      show c ++ strConcat (List.filter _ rest) = c ++ strConcat rest
      rw [ih]

/-- Content events decode back to their chunks. -/
theorem filterMap_comp_contentEv (l : List String) :
    List.filterMap
      ((fun e =>
          match e with
          | StreamEvent.contentEv c => some c
          | _ => none) ∘ StreamEvent.contentEv) l = l := by
  induction l with
  | nil => rfl
  | cons c rest ih =>
    show c :: List.filterMap _ rest = c :: rest
    rw [ih]

/-- The content chunks of a main-path stream are exactly the non-empty
upstream chunks, in order. -/
theorem contentChunks_processStreamMain (st : AgentState) (chunks : List String) :
    contentChunks (processStreamMain st chunks) =
      chunks.filter (fun c => c ≠ "") := by
  simp only [contentChunks, processStreamMain, List.filterMap_append]
  by_cases h : st.recommended_properties.isEmpty <;>
    simp [h, filterMap_comp_contentEv]

def exStreamState : AgentState :=
  { user_message := "show me options"
    conversation_id := "c1"
    messages := []
    preferences := []
    lead_info := []
    intent := some Intent.searching_properties
    needs_web_search := false
    needs_property_first := false
    interested_properties := []
    recommended_properties := []
    selected_property := none
    sql_results := none
    web_search_results := none
    response := ""
    booking_confirmed := false
    booking_project := none
    needs_more_info := false
    missing_preferences := []
    error := none }

/-- C5 (counterexample): on a concrete non-greeting turn whose upstream
chunks are `"Hel"` and `"lo"`, the final `done` event exists but its payload
holds no `response` key at all — the claim's "response recorded in the
final done event" is not there (the concatenation is recorded in the
agent state and in the persisted message, not in the payload). -/
theorem streaming_done_event_lacks_response :
    (lastDonePayload (processStreamMain exStreamState ["Hel", "lo"])).map
        (fun p => getKey p "response") = some none ∧
    sseFullResponse (processStreamMain exStreamState ["Hel", "lo"]) = "Hello" :=
  ⟨rfl, rfl⟩

/-- C5 (amended): streaming is a pass-through — every content chunk
yielded by `process_stream` is one upstream LLM chunk and the yielded
chunks are exactly the non-empty upstream chunks in upstream order; the
in-order concatenation of the yielded chunks equals the concatenation of
all upstream chunks, is the response stored in the agent state before
the `done` event, and is the assistant message `chat_stream` persists
(persisted only when non-empty); the main-path `done` payload carries
the seven state keys and omits `response`.  On the greeting path the
single content chunk is the whole (unstreamed) LLM reply. -/
theorem streaming_pass_through (st : AgentState) (chunks : List String)
    (resp : String) :
    List.Sublist (contentChunks (processStreamMain st chunks)) chunks ∧
    contentChunks (processStreamMain st chunks) = chunks.filter (fun c => c ≠ "") ∧
    sseFullResponse (processStreamMain st chunks) = strConcat chunks ∧
    lastDonePayload (processStreamMain st chunks) = some (donePayload st) ∧
    getKey (donePayload st) "response" = none ∧
    chatStreamPersisted (processStreamMain st chunks) =
      (if strConcat chunks = "" then none else some (strConcat chunks)) ∧
    contentChunks (processStreamGreeting st resp) = [resp] ∧
    chatStreamPersisted (processStreamGreeting st resp) =
      (if resp = "" then none else some resp) := by
  have hcc := contentChunks_processStreamMain st chunks
  have hfull : sseFullResponse (processStreamMain st chunks) = strConcat chunks := by
    rw [sseFullResponse, hcc, strConcat_filter_ne]
  refine ⟨?_, hcc, hfull, ?_, rfl, ?_, ?_, ?_⟩
  · rw [hcc]; exact List.filter_sublist chunks
  · simp only [processStreamMain, lastDonePayload]
    by_cases h : st.recommended_properties.isEmpty <;> simp [h] <;> rfl
  · rw [chatStreamPersisted, hfull]
  · by_cases h : st.recommended_properties.isEmpty <;> rfl
  · show chatStreamPersisted [_, _, _] = _
    simp only [chatStreamPersisted, sseFullResponse, contentChunks, List.filterMap]
    show (if resp ++ "" = "" then none else some (resp ++ "")) = _
    rw [String.append_empty]

/-- C6: `POST /conversations` always succeeds — for every database
state it appends one fresh conversation row with empty context and the
default status `active`, leaves every other table untouched, and the
response carries exactly that row's id, status, context and creation
time. -/
theorem create_conversation_returns_id (db : Database) (freshId now : Nat) :
    (createConversationEndpoint db freshId now).2 =
      { id := freshId, status := "active", context := [], created_at := now } ∧
    (createConversationEndpoint db freshId now).1.conversations =
      db.conversations ++
        [{ id := freshId, status := "active", context := [], created_at := now }] ∧
    (createConversationEndpoint db freshId now).1.messages = db.messages ∧
    (createConversationEndpoint db freshId now).1.leads = db.leads ∧
    (createConversationEndpoint db freshId now).1.bookings = db.bookings :=
  ⟨rfl, rfl, rfl, rfl, rfl⟩

def exProject7 : Project :=
  { id := "p1"
    project_name := "Seine View Residences"
    bedrooms := some 2
    bathrooms := some 2
    completion_status := none
    developer_name := none
    price_usd := some 500000
    area_sqm := some 90
    property_type := some "apartment"
    city := some "Paris"
    country := some "France"
    description := none }

def exParams7 : SearchParams :=
  { city := some "France"
    min_price := none
    max_price := none
    bedrooms := none
    property_type := none }

/-- C7 (counterexample): the query the backend SQL tool executes is not
the SQL template with the parameter values substituted in.  For a row
with `city = "Paris"`, `country = "France"` and `city` parameter
`"France"`, the executed ORM query matches the row (its `country`
equals the term case-insensitively) while the substituted template
(`LOWER(city) LIKE LOWER('%France%')`, a `city`-column test only)
matches nothing. -/
theorem sql_tool_query_not_template :
    (searchProperties [exProject7] exParams7 5).map (fun r => r.id) = ["p1"] ∧
    (templateSearch [exProject7] exParams7 5).map (fun p => p.id) = [] := by
  decide

/-- C7 (amended): the backend SQL tool the orchestrator calls builds
its database query by composing ORM filters, one per truthy parameter —
city matches when the row's city contains the term or its country
equals it (both case-insensitively), price bounds, exact bedrooms,
case-insensitive property type — over rows with a price; it returns at
most `limit` rows, each the row dictionary of a matching project (with
description truncated), in ascending price order.  (Only the legacy
app-layer tool formats the values into a SQL template string.) -/
theorem sql_search_is_filtered_query (db : List Project) (ps : SearchParams)
    (limit : Nat) :
    (searchProperties db ps limit).length ≤ limit ∧
    (∀ r ∈ searchProperties db ps limit,
      ∃ p ∈ db, projectMatches ps p = true ∧ r = toResultRow p) ∧
    (searchProperties db ps limit).Pairwise
      (fun a b => a.price_usd.getD 0 ≤ b.price_usd.getD 0) := by
  refine ⟨?_, ?_, ?_⟩
  · rw [searchProperties, List.length_map]
    exact List.length_take_le _ _
  · intro r hr
    rw [searchProperties] at hr
    obtain ⟨p, hp, rfl⟩ := List.mem_map.mp hr
    have hp1 : p ∈ (db.filter (projectMatches ps)).insertionSort priceLE :=
      (List.take_sublist _ _).subset hp
    have hp2 : p ∈ db.filter (projectMatches ps) :=
      (List.perm_insertionSort priceLE _).mem_iff.mp hp1
    have hp3 := List.mem_filter.mp hp2
    exact ⟨p, hp3.1, hp3.2, rfl⟩
  · rw [searchProperties]
    rw [List.pairwise_map]
    have hs : ((db.filter (projectMatches ps)).insertionSort priceLE).Sorted priceLE :=
      List.sorted_insertionSort priceLE _
    have ht : (((db.filter (projectMatches ps)).insertionSort priceLE).take
        limit).Pairwise priceLE :=
      hs.sublist (List.take_sublist _ _)
    exact ht.imp (fun h => h)

/-- C7 witness: the amended theorem applied at the one-row database. -/
theorem sql_search_witness :
    ∃ p ∈ [exProject7], projectMatches exParams7 p = true ∧
      toResultRow exProject7 = toResultRow p :=
  (sql_search_is_filtered_query [exProject7] exParams7 5).2.1
    (toResultRow exProject7) (by decide)

/-- A `filterMap` whose function is a guarded `some` is a filter
followed by a map. -/
theorem filterMap_guard {α β : Type} (p : α → Bool) (f : α → β) :
    ∀ l : List α,
      l.filterMap (fun a => if p a then some (f a) else none) = (l.filter p).map f := by
  intro l
  induction l with
  | nil => rfl
  | cons a rest ih =>
    by_cases h : p a <;> simp [List.filterMap_cons, List.filter_cons, h, ih]

def exResults8 : List RawResult :=
  [{ title := some "A", snippet := some "B", content := none, url := some "u" }]

def exExtract8 : List (String × String) := [("u", "C")]

/-- C8 (counterexample): `search_and_extract` does not always return
just the concatenated snippet entries.  With one short snippet entry,
Tavily configured, and a non-empty extraction for the top url, it
returns the snippets with the extracted page content appended, which
differs from the plain concatenation the claim describes. -/
theorem web_search_not_only_snippets :
    searchAndExtract exResults8 true exExtract8 ≠
      some (String.intercalate "\n\n" (snippetParts exResults8)) ∧
    searchAndExtract exResults8 true exExtract8 =
      some ("1. **A**\nB\nSource: u\n\n--- DETAILED CONTENT ---\n\nSource: u\n\nC") := by
  decide

/-- C8 (amended): `WebSearchTool.search_and_extract` renders the search
results as numbered title/snippet/source entries, omitting every entry
lacking a title or a snippet (numbering keeps original positions).  With
no results it returns `None`.  When the joined snippet text is at least
500 characters, or Tavily is not configured, the result is exactly that
text — `None` when it is empty (no entry had both title and snippet).
Only when the snippet text is shorter than 500 characters, Tavily is
configured, a top-two result has a url and the extraction is non-empty,
is the extracted page content appended after the snippets. -/
theorem web_search_concatenates_snippets (results : List RawResult) (tav : Bool)
    (er : List (String × String)) :
    let snippets := String.intercalate "\n\n" (snippetParts results)
    let urls := (results.take 2).filterMap (fun r =>
      if rUrl r ≠ "" then some (rUrl r) else none)
    (snippetParts results =
      (results.enum.filter (fun e => rTitle e.2 ≠ "" && rSnippet e.2 ≠ "")).map
        (fun e => renderEntry (e.1 + 1) e.2)) ∧
    searchAndExtract [] tav er = none ∧
    (searchAndExtract results false er =
      if results.isEmpty then none
      else if snippets = "" then none else some snippets) ∧
    (500 ≤ snippets.length →
      searchAndExtract results tav er =
        if results.isEmpty then none
        else if snippets = "" then none else some snippets) ∧
    (results ≠ [] → snippets.length < 500 → urls ≠ [] → tavilyExtract er ≠ [] →
      searchAndExtract results true er =
        some (snippets ++ "\n\n--- DETAILED CONTENT ---\n\n" ++
          String.intercalate "\n\n"
            ((tavilyExtract er).map (fun e => "Source: " ++ e.1 ++ "\n\n" ++ e.2)))) := by
  refine ⟨filterMap_guard _ _ _, rfl, ?_, ?_, ?_⟩
  · by_cases hres : results.isEmpty
    · simp [searchAndExtract, hres]
    · by_cases hsn : String.intercalate "\n\n" (snippetParts results) = "" <;>
        simp [searchAndExtract, hres, hsn]
  · intro hlen
    by_cases hres : results.isEmpty
    · simp [searchAndExtract, hres]
    · have hsn : ¬ String.intercalate "\n\n" (snippetParts results) = "" := by
        intro h
        rw [h] at hlen
        exact absurd hlen (by decide)
      have hnot : ¬ (String.intercalate "\n\n" (snippetParts results)).length < 500 :=
        Nat.not_lt.mpr hlen
      simp [searchAndExtract, hres, hsn, hnot]
  · intro hres hlen hurls hex
    have hres2 : results.isEmpty = false := by
      cases results with
      | nil => exact absurd rfl hres
      | cons a l => rfl
    have hurls2 : ∃ x ∈ results.take 2, ¬ rUrl x = "" := by
      simpa using hurls
    simp [searchAndExtract, hres2, hlen, hex, hurls2]

/-- C8 witness: the amended theorem applied at the concrete short-snippet
run with a non-empty extraction. -/
theorem web_search_witness :
    searchAndExtract exResults8 true exExtract8 =
      some ((String.intercalate "\n\n" (snippetParts exResults8)) ++
        "\n\n--- DETAILED CONTENT ---\n\n" ++
        String.intercalate "\n\n"
          ((tavilyExtract exExtract8).map (fun e => "Source: " ++ e.1 ++ "\n\n" ++ e.2))) :=
  (web_search_concatenates_snippets exResults8 true exExtract8).2.2.2.2
    (by decide) (by decide) (by decide) (by decide)

/-- C9: when the conversation id has no stored conversation, both
`POST /agents/chat` and `POST /agents/chat/stream` fail with the
NotFound error before persisting anything — the database is returned
unchanged, so no message, lead, booking or context write happens. -/
theorem chat_not_found_no_writes (db : Database) (cid : Nat) (message : String)
    (result : ProcessResult) (lfid bfid : Nat)
    (h : getConversation db cid = none) :
    chat db cid message result lfid bfid =
      (db, Except.error "Conversation not found") ∧
    chatStreamStart db cid message =
      (db, Except.error "Conversation not found") := by
  constructor <;> simp [chat, chatStreamStart, h]

def emptyDb : Database :=
  { projects := [], conversations := [], messages := [], leads := [], bookings := [] }

def exResult9 : ProcessResult :=
  { response := "ok"
    intent := some Intent.greeting
    preferences := []
    lead_info := []
    recommended_properties := []
    interested_properties := []
    booking_confirmed := false
    booking_project := none
    error := none }

/-- C9 witness: the NotFound theorem applied to the empty database. -/
theorem chat_not_found_witness :
    getConversation emptyDb 1 = none ∧
    chat emptyDb 1 "hi" exResult9 0 0 =
      (emptyDb, Except.error "Conversation not found") :=
  ⟨rfl, (chat_not_found_no_writes emptyDb 1 "hi" exResult9 0 0 rfl).1⟩

theorem addMessage_bookings (db : Database) (cid : Nat) (role content : String)
    (extra : ADict StateValue) :
    (addMessage db cid role content extra).bookings = db.bookings := rfl

theorem addMessage_projects (db : Database) (cid : Nat) (role content : String)
    (extra : ADict StateValue) :
    (addMessage db cid role content extra).projects = db.projects := rfl

theorem serviceUpdateContext_bookings (db : Database) (cid : Nat)
    (ctx : ADict StateValue) :
    (serviceUpdateContext db cid ctx).bookings = db.bookings := by
  unfold serviceUpdateContext
  cases getConversation db cid <;> rfl

theorem serviceUpdateContext_projects (db : Database) (cid : Nat)
    (ctx : ADict StateValue) :
    (serviceUpdateContext db cid ctx).projects = db.projects := by
  unfold serviceUpdateContext
  cases getConversation db cid <;> rfl

theorem getOrCreateLead_bookings (db : Database) (cid : Nat) (info : AssocDict)
    (fid : Nat) :
    (getOrCreateLead db cid info fid).1.bookings = db.bookings := by
  unfold getOrCreateLead
  cases db.leads.find? (fun l => l.conversation_id = some cid) <;> rfl

theorem getOrCreateLead_projects (db : Database) (cid : Nat) (info : AssocDict)
    (fid : Nat) :
    (getOrCreateLead db cid info fid).1.projects = db.projects := by
  unfold getOrCreateLead
  cases db.leads.find? (fun l => l.conversation_id = some cid) <;> rfl

theorem updateLeadPreferences_bookings (db : Database) (leadId : Nat)
    (prefs : AssocDict) :
    (updateLeadPreferences db leadId prefs).bookings = db.bookings := rfl

theorem updateLeadPreferences_projects (db : Database) (leadId : Nat)
    (prefs : AssocDict) :
    (updateLeadPreferences db leadId prefs).projects = db.projects := rfl

/-- What `_collect_lead_info` stores in `booking_confirmed`: property
context (booking project already set, or some recommended property) and
a truthy first name and email in the merged lead info. -/
theorem collectLeadInfo_confirmed (st : AgentState) (extracted : AssocDict) :
    (collectLeadInfo st extracted).booking_confirmed =
      ((optStrTruthy st.booking_project || !st.recommended_properties.isEmpty) &&
       (optTruthy (getKey (mergeLead st.lead_info extracted) "first_name") &&
        optTruthy (getKey (mergeLead st.lead_info extracted) "email"))) := by
  unfold collectLeadInfo
  cases hbp : optStrTruthy st.booking_project with
  | true =>
    cases hf : optTruthy (getKey (mergeLead st.lead_info extracted) "first_name") <;>
      cases he : optTruthy (getKey (mergeLead st.lead_info extracted) "email") <;>
        simp [hbp, hf, he]
  | false =>
    cases hrec : st.recommended_properties with
    | nil =>
      cases hf : optTruthy (getKey (mergeLead st.lead_info extracted) "first_name") <;>
        cases he : optTruthy (getKey (mergeLead st.lead_info extracted) "email") <;>
          simp [hbp, hf, he, hrec]
    | cons p rest =>
      cases hf : optTruthy (getKey (mergeLead st.lead_info extracted) "first_name") <;>
        cases he : optTruthy (getKey (mergeLead st.lead_info extracted) "email") <;>
          cases hbp2 : optStrTruthy (some p.project_name) <;>
            simp [hbp, hf, he, hrec, hbp2]

/-- If the lead/booking block changed the bookings table, then the
booking was confirmed, the email truthy, and the named project exists. -/
theorem persistLeadAndBooking_changed (db : Database) (cid : Nat)
    (result : ProcessResult) (lfid bfid : Nat)
    (h : (persistLeadAndBooking db cid result lfid bfid).bookings ≠ db.bookings) :
    result.booking_confirmed = true ∧
    optTruthy (getKey result.lead_info "email") = true ∧
    ∃ bp, result.booking_project = some bp ∧
      ∃ p ∈ db.projects, strIContains p.project_name bp = true := by
  unfold persistLeadAndBooking at h
  by_cases hcond : (result.booking_confirmed &&
      optTruthy (getKey result.lead_info "email")) = true
  · rw [if_pos hcond] at h
    obtain ⟨hbc, hem⟩ := (Bool.and_eq_true _ _).mp hcond
    refine ⟨hbc, hem, ?_⟩
    have hlb : (if result.preferences ≠ [] then
          updateLeadPreferences (getOrCreateLead db cid result.lead_info lfid).1
            (getOrCreateLead db cid result.lead_info lfid).2.id result.preferences
        else (getOrCreateLead db cid result.lead_info lfid).1).bookings =
        db.bookings := by
      by_cases hp : result.preferences ≠ [] <;>
        simp [hp, updateLeadPreferences_bookings, getOrCreateLead_bookings]
    have hlp : (if result.preferences ≠ [] then
          updateLeadPreferences (getOrCreateLead db cid result.lead_info lfid).1
            (getOrCreateLead db cid result.lead_info lfid).2.id result.preferences
        else (getOrCreateLead db cid result.lead_info lfid).1).projects =
        db.projects := by
      by_cases hp : result.preferences ≠ [] <;>
        simp [hp, updateLeadPreferences_projects, getOrCreateLead_projects]
    cases hbp : result.booking_project with
    | none => rw [hbp] at h; exact absurd hlb h
    | some bp =>
      rw [hbp] at h
      dsimp only at h
      by_cases hbpe : bp ≠ ""
      · rw [if_pos hbpe] at h
        cases hfind : findProjectByName (if result.preferences ≠ [] then
            updateLeadPreferences (getOrCreateLead db cid result.lead_info lfid).1
              (getOrCreateLead db cid result.lead_info lfid).2.id result.preferences
          else (getOrCreateLead db cid result.lead_info lfid).1) bp with
        | none => rw [hfind] at h; exact absurd hlb h
        | some project =>
          unfold findProjectByName at hfind
          have hpred := List.find?_some hfind
          exact ⟨bp, rfl, project, hlp ▸ List.mem_of_find?_eq_some hfind, hpred⟩
      · rw [if_neg hbpe] at h; exact absurd hlb h
  · rw [if_neg hcond] at h
    exact absurd rfl h

/-- C10: `_collect_lead_info` confirms a booking iff a property context
exists (booking project set, or recommended properties non-empty) and
the merged lead info has a truthy first name and email; and
`AgentsController.chat` writes a `Booking` row only when the agent
confirmed the booking, the lead info has a truthy email, and the named
booking project matches an existing `Project` (case-insensitive
containment). -/
theorem booking_only_with_complete_lead (st : AgentState) (extracted : AssocDict)
    (db : Database) (cid : Nat) (message : String) (result : ProcessResult)
    (lfid bfid : Nat) :
    ((collectLeadInfo st extracted).booking_confirmed = true ↔
      ((optStrTruthy st.booking_project = true ∨
        st.recommended_properties ≠ []) ∧
       optTruthy (getKey (mergeLead st.lead_info extracted) "first_name") = true ∧
       optTruthy (getKey (mergeLead st.lead_info extracted) "email") = true)) ∧
    ((chat db cid message result lfid bfid).1.bookings ≠ db.bookings →
      result.booking_confirmed = true ∧
      optTruthy (getKey result.lead_info "email") = true ∧
      ∃ bp, result.booking_project = some bp ∧
        ∃ p ∈ db.projects, strIContains p.project_name bp = true) := by
  constructor
  · rw [collectLeadInfo_confirmed]
    simp [Bool.and_eq_true, Bool.or_eq_true, List.isEmpty_iff]
  · intro hne
    cases hconv : getConversation db cid with
    | none =>
      have hchat : chat db cid message result lfid bfid =
          (db, Except.error "Conversation not found") := by
        unfold chat; rw [hconv]
      rw [hchat] at hne
      exact absurd rfl hne
    | some conv =>
      have hchat : (chat db cid message result lfid bfid).1 =
          persistLeadAndBooking
            (serviceUpdateContext
              (addMessage (addMessage db cid "user" message []) cid "assistant"
                result.response
                [("intent", StateValue.vOptStr (result.intent.map Intent.toName)),
                 ("recommended_properties",
                  StateValue.vStrs (result.recommended_properties.map
                    (fun p => p.project_name)))])
              cid
              [("preferences", StateValue.vDict result.preferences),
               ("lead_info", StateValue.vDict result.lead_info)])
            cid result lfid bfid := by
        unfold chat; rw [hconv]
      rw [hchat] at hne
      have h3b : (serviceUpdateContext
            (addMessage (addMessage db cid "user" message []) cid "assistant"
              result.response
              [("intent", StateValue.vOptStr (result.intent.map Intent.toName)),
               ("recommended_properties",
                StateValue.vStrs (result.recommended_properties.map
                  (fun p => p.project_name)))])
            cid
            [("preferences", StateValue.vDict result.preferences),
             ("lead_info", StateValue.vDict result.lead_info)]).bookings =
          db.bookings := by
        rw [serviceUpdateContext_bookings, addMessage_bookings, addMessage_bookings]
      have h3p : (serviceUpdateContext
            (addMessage (addMessage db cid "user" message []) cid "assistant"
              result.response
              [("intent", StateValue.vOptStr (result.intent.map Intent.toName)),
               ("recommended_properties",
                StateValue.vStrs (result.recommended_properties.map
                  (fun p => p.project_name)))])
            cid
            [("preferences", StateValue.vDict result.preferences),
             ("lead_info", StateValue.vDict result.lead_info)]).projects =
          db.projects := by
        rw [serviceUpdateContext_projects, addMessage_projects, addMessage_projects]
      obtain ⟨hbc, hem, bp, hbpeq, p, hpmem, hpred⟩ :=
        persistLeadAndBooking_changed _ cid result lfid bfid (h3b ▸ hne)
      exact ⟨hbc, hem, bp, hbpeq, p, h3p ▸ hpmem, hpred⟩

def exProjectBk : Project :=
  { id := "pr1"
    project_name := "JDS Group Tower"
    bedrooms := some 3
    bathrooms := some 2
    completion_status := none
    developer_name := none
    price_usd := some 900000
    area_sqm := some 120
    property_type := some "apartment"
    city := some "Miami"
    country := some "USA"
    description := none }

def exDbBk : Database :=
  { projects := [exProjectBk]
    conversations := [{ id := 1, status := "active", context := [], created_at := 0 }]
    messages := []
    leads := []
    bookings := [] }

def exResultBk : ProcessResult :=
  { response := "Booking confirmed!"
    intent := some Intent.collecting_lead_info
    preferences := []
    lead_info := [("first_name", JValue.str "Ana"), ("email", JValue.str "ana@mail.com")]
    recommended_properties := []
    interested_properties := []
    booking_confirmed := true
    booking_project := some "JDS"
    error := none }

/-- C10 witness: the booking theorem applied to a run that does create a
booking row. -/
theorem booking_witness :
    (chat exDbBk 1 "book it" exResultBk 7 8).1.bookings ≠ exDbBk.bookings ∧
    (exResultBk.booking_confirmed = true ∧
      optTruthy (getKey exResultBk.lead_info "email") = true ∧
      ∃ bp, exResultBk.booking_project = some bp ∧
        ∃ p ∈ exDbBk.projects, strIContains p.project_name bp = true) :=
  ⟨by decide,
   (booking_only_with_complete_lead exStreamState [] exDbBk 1 "book it" exResultBk
      7 8).2 (by decide)⟩

end PropLens
